import Mathlib

/-!
Verification of the formatting core of `fluent-datetime`
(`src/lib.rs`, `src/length.rs`): the style model, the
field-set compiler, leap-second clamping, option merging, the
`DATETIME` template function, hashing of options, and the
string-conversion entry points, shallowly embedded in Lean.
-/

set_option autoImplicit false

namespace FluentDatetime

/-- Rust `length::Date` from `src/length.rs`: verbosity tiers for the date part. -/
inductive Date where
  | Full
  | Long
  | Medium
  | Short
deriving DecidableEq, Fintype

/-- Rust `length::Time` from `src/length.rs`: verbosity tiers for the time part. -/
inductive Time where
  | Full
  | Long
  | Medium
  | Short
deriving DecidableEq, Fintype

/-- Rust `length::Bag` from `src/length.rs`: up to one date style and one time style. -/
structure Bag where
  date : Option Date
  time : Option Time
deriving DecidableEq, Fintype

/-- Rust `Bag::empty()`: both fields `None`. -/
def Bag.empty : Bag :=
  { date := none, time := none }

/-- Rust `icu_datetime::fieldsets::builder::DateFields`, restricted to the two
variants the source uses. -/
inductive DateFields where
  | YMD
  | YMDE
deriving DecidableEq, Fintype

/-- Rust `icu_datetime::options::Length`, restricted to the variants the source uses. -/
inductive Length where
  | Long
  | Medium
  | Short
deriving DecidableEq, Fintype

/-- Rust `icu_datetime::options::TimePrecision`, restricted to the variants the
source uses. -/
inductive TimePrecision where
  | Minute
  | Second
deriving DecidableEq, Fintype

/-- Rust `icu_datetime::fieldsets::builder::ZoneStyle`, restricted to the variants
the source uses. -/
inductive ZoneStyle where
  | SpecificLong
  | SpecificShort
deriving DecidableEq, Fintype

/-- Rust `icu_datetime::fieldsets::builder::FieldSetBuilder`, restricted to the
fields the source sets. `FieldSetBuilder::new()` starts with every field
unset. -/
structure FieldSetBuilder where
  date_fields : Option DateFields
  length : Option Length
  time_precision : Option TimePrecision
  zone_style : Option ZoneStyle
deriving DecidableEq, Fintype

/-- Rust `FieldSetBuilder::new()`: all fields `None`. -/
def FieldSetBuilder.new : FieldSetBuilder :=
  { date_fields := none, length := none, time_precision := none, zone_style := none }

/-- Rust `Bag::to_fieldset_builder` from `src/length.rs`: substitute the
default-date-only policy for the empty bag, then translate the date style
into field selection and length and the time style into precision and zone
style. -/
def Bag.to_fieldset_builder (self : Bag) : FieldSetBuilder :=
  let dt : Option Date × Option Time :=
    if self = Bag.empty then (some Date.Short, none) else (self.date, self.time)
  let builder := FieldSetBuilder.new
  let builder :=
    match dt.1 with
    | some date =>
      { builder with
        date_fields := some (if date = Date.Full then DateFields.YMDE else DateFields.YMD)
        length := some (match date with
          | Date.Full | Date.Long => Length.Long
          | Date.Medium => Length.Medium
          | Date.Short => Length.Short) }
    | none => builder
  let builder :=
    match dt.2 with
    | some time =>
      let builder :=
        { builder with
          time_precision :=
            some (if time = Time.Short then TimePrecision.Minute else TimePrecision.Second) }
      if time = Time.Full then
        { builder with zone_style := some ZoneStyle.SpecificLong }
      else if time = Time.Long then
        { builder with zone_style := some ZoneStyle.SpecificShort }
      else builder
    | none => builder
  builder

/-- Rust `FluentDateTimeOptions` from `src/lib.rs`: currently just a `length::Bag`. -/
structure FluentDateTimeOptions where
  length : Bag
deriving DecidableEq, Fintype

/-- Rust `impl Default for FluentDateTimeOptions`: the empty bag. -/
def FluentDateTimeOptions.default : FluentDateTimeOptions :=
  { length := Bag.empty }

/-- Rust `FluentDateTimeOptions::set_date_style`. -/
def FluentDateTimeOptions.set_date_style (self : FluentDateTimeOptions) (style : Option Date) :
    FluentDateTimeOptions :=
  { self with length := { self.length with date := style } }

/-- Rust `FluentDateTimeOptions::set_time_style`. -/
def FluentDateTimeOptions.set_time_style (self : FluentDateTimeOptions) (style : Option Time) :
    FluentDateTimeOptions :=
  { self with length := { self.length with time := style } }

/-- The time-of-day part of `icu_time::DateTime`: hour, minute, second
(`0..=60`, leap seconds representable) and nanosecond subsecond, modelled
as unbounded naturals (the source types enforce the ranges at construction). -/
structure IcuTime where
  hour : Nat
  minute : Nat
  second : Nat
  subsecond : Nat
deriving DecidableEq

/-- The calendar-date part of `icu_time::DateTime<Iso>`. -/
structure IsoDate where
  year : Int
  month : Nat
  day : Nat
deriving DecidableEq

/-- Rust `icu_time::DateTime<Iso>`: a naive (zone-less) date-time. -/
structure IcuDateTime where
  date : IsoDate
  time : IcuTime
deriving DecidableEq

/-- Rust `clamp_datetime_for_jiff` from `src/lib.rs`: leave seconds below 60
untouched; otherwise (a leap second) clamp to second 59 with the maximum
subsecond. The `Cow` borrow/own distinction of the source is value-level
irrelevant. -/
def clamp_datetime_for_jiff (dt : IcuDateTime) : IcuDateTime :=
  if dt.time.second < 60 then dt
  else { dt with time := { dt.time with second := 59, subsecond := 999999999 } }

/-- Rust `FluentDateTime` from `src/lib.rs`: a naive ICU date-time plus options. -/
structure FluentDateTime where
  value : IcuDateTime
  options : FluentDateTimeOptions
deriving DecidableEq

/-- The payload of `FluentValue::Custom`: either this crate's
`FluentDateTime` (the downcast succeeds) or some other custom type
(the downcast fails). -/
inductive CustomValue where
  | fdt (dt : FluentDateTime)
  | otherCustom
deriving DecidableEq

/-- Rust `fluent_bundle::FluentValue`, restricted to the variants the source
distinguishes: strings, numbers (standing for every non-string non-custom
payload), custom values, the empty variant and the error sentinel. -/
inductive FluentValue where
  | Str (s : String)
  | Number (n : Int)
  | Custom (c : CustomValue)
  | NoneVal
  | Error
deriving DecidableEq

/-- Rust `val_as_str` from `src/lib.rs`: the string payload, if any. -/
def val_as_str (val : FluentValue) : Option String :=
  match val with
  | FluentValue.Str s => some s
  | _ => none

/-- Rust `FluentDateTimeOptions::merge_args` from `src/lib.rs`, with the mutable
`self` made explicit: the returned options are the state of `self` when the
loop finishes or fails, and the boolean is `true` for `Ok(())` and `false`
for `Err(())`.  `FluentArgs` iteration is modelled as a list of
name/value pairs. -/
def FluentDateTimeOptions.merge_args :
    FluentDateTimeOptions → List (String × FluentValue) → FluentDateTimeOptions × Bool
  | self, [] => (self, true)
  | self, (k, v) :: rest =>
    if k = "dateStyle" then
      match val_as_str v with
      | none => (self, false)
      | some s =>
        if s = "full" then
          FluentDateTimeOptions.merge_args
            { self with length := { self.length with date := some Date.Full } } rest
        else if s = "long" then
          FluentDateTimeOptions.merge_args
            { self with length := { self.length with date := some Date.Long } } rest
        else if s = "medium" then
          FluentDateTimeOptions.merge_args
            { self with length := { self.length with date := some Date.Medium } } rest
        else if s = "short" then
          FluentDateTimeOptions.merge_args
            { self with length := { self.length with date := some Date.Short } } rest
        else (self, false)
    else if k = "timeStyle" then
      match val_as_str v with
      | none => (self, false)
      | some s =>
        if s = "full" then
          FluentDateTimeOptions.merge_args
            { self with length := { self.length with time := some Time.Full } } rest
        else if s = "long" then
          FluentDateTimeOptions.merge_args
            { self with length := { self.length with time := some Time.Long } } rest
        else if s = "medium" then
          FluentDateTimeOptions.merge_args
            { self with length := { self.length with time := some Time.Medium } } rest
        else if s = "short" then
          FluentDateTimeOptions.merge_args
            { self with length := { self.length with time := some Time.Short } } rest
        else (self, false)
    else FluentDateTimeOptions.merge_args self rest

/-- The date style a `"dateStyle"` argument value parses to, if any:
a string with one of the four recognized spellings. -/
def parseDateValue (v : FluentValue) : Option Date :=
  match val_as_str v with
  | none => none
  | some s =>
    if s = "full" then some Date.Full
    else if s = "long" then some Date.Long
    else if s = "medium" then some Date.Medium
    else if s = "short" then some Date.Short
    else none

/-- The time style a `"timeStyle"` argument value parses to, if any. -/
def parseTimeValue (v : FluentValue) : Option Time :=
  match val_as_str v with
  | none => none
  | some s =>
    if s = "full" then some Time.Full
    else if s = "long" then some Time.Long
    else if s = "medium" then some Time.Medium
    else if s = "short" then some Time.Short
    else none

/-- Spec-side description of the date axis after a successful merge: each
`"dateStyle"` entry that parses overwrites the axis, every other entry
leaves it alone. -/
def appliedDate : Option Date → List (String × FluentValue) → Option Date
  | init, [] => init
  | init, kv :: rest =>
    appliedDate
      (if kv.1 = "dateStyle" then
        match parseDateValue kv.2 with
        | some d => some d
        | none => init
      else init) rest

/-- Spec-side description of the time axis after a successful merge. -/
def appliedTime : Option Time → List (String × FluentValue) → Option Time
  | init, [] => init
  | init, kv :: rest =>
    appliedTime
      (if kv.1 = "timeStyle" then
        match parseTimeValue kv.2 with
        | some t => some t
        | none => init
      else init) rest

/-- The `DATETIME` Fluent function from `src/lib.rs`: the first positional
argument must be a custom value that downcasts to `FluentDateTime`; its
options are cloned, the named arguments merged into the clone, and either
the updated clone or the error sentinel is returned. -/
def DATETIME (positional : List FluentValue) (named : List (String × FluentValue)) :
    FluentValue :=
  match positional.head? with
  | some (FluentValue.Custom cus) =>
    match cus with
    | CustomValue.fdt dt =>
      let r := dt.options.merge_args named
      if r.2 then FluentValue.Custom (CustomValue.fdt { dt with options := r.1 })
      else FluentValue.Error
    | CustomValue.otherCustom => FluentValue.Error
  | _ => FluentValue.Error

/-- Whether a `FluentValue` is a custom value downcasting to `FluentDateTime`. -/
def isFdtCustomVal : FluentValue → Bool
  | FluentValue.Custom (CustomValue.fdt _) => true
  | _ => false

/-- The discriminant of `length::Date`, as `std::mem::discriminant` yields it
(an opaque value deciding only which variant it is; modelled as the variant
index). -/
def discrDate : Date → Nat
  | Date.Full => 0
  | Date.Long => 1
  | Date.Medium => 2
  | Date.Short => 3

/-- The discriminant of `length::Time`. -/
def discrTime : Time → Nat
  | Time.Full => 0
  | Time.Long => 1
  | Time.Medium => 2
  | Time.Short => 3

/-- Rust `impl Hash for FluentDateTimeOptions` from `src/lib.rs`: the data fed to
the hasher is the pair of discriminants of the two optional styles, nothing
else. -/
def optionsHashKey (o : FluentDateTimeOptions) : Option Nat × Option Nat :=
  (o.length.date.map discrDate, o.length.time.map discrTime)

/-- Modelled from the spec: the system time zone handed to jiff's
`to_zoned` by `naive_datetime_to_system` (`src/lib.rs`); jiff itself is an
external dependency, not part of this repository.  A zone with one DST
transition: at instant `trans` (seconds on a linear instant scale) the UTC
offset changes from `offBefore` to `offAfter` seconds. -/
structure SimpleTZ where
  trans : Int
  offBefore : Int
  offAfter : Int
deriving DecidableEq

/-- The UTC offset the zone applies at an instant. -/
def SimpleTZ.offsetAt (tz : SimpleTZ) (t : Int) : Int :=
  if t < tz.trans then tz.offBefore else tz.offAfter

/-- The local (naive) time an instant shows on the wall clock of the zone. -/
def SimpleTZ.localAt (tz : SimpleTZ) (t : Int) : Int :=
  t + tz.offsetAt t

/-- Modelled from the spec: jiff's `civil::DateTime::to_zoned`, the
"compatible" disambiguation policy used by `naive_datetime_to_system`
(`src/lib.rs`).  A local time `l` can correspond to the instant
`l - offBefore` (valid when it falls before the transition) or
`l - offAfter` (valid when it falls at or after it).  If both are valid
(ambiguity) the earlier is chosen; if exactly one is valid it is taken; if
neither is valid (gap) the local time is advanced by the gap duration
`offAfter - offBefore` and resolved with the post-transition offset. -/
def SimpleTZ.toZonedCompatible (tz : SimpleTZ) (l : Int) : Int :=
  let t1 := l - tz.offBefore
  let t2 := l - tz.offAfter
  if t1 < tz.trans ∧ tz.trans ≤ t2 then min t1 t2
  else if t1 < tz.trans then t1
  else if tz.trans ≤ t2 then t2
  else (l + (tz.offAfter - tz.offBefore)) - tz.offAfter

/-- An opaque handle for a constructed ICU formatter. -/
def IcuFormatter : Type := Nat

/-- The external collaborators of the string-conversion paths
(`src/lib.rs`): language-tag parsing
(`icu_locale_core::LanguageIdentifier::from_str`), the two fallible ICU
formatter constructors (`DateTimeFormatter::try_new` on the composite and
composite-datetime field sets) and their rendering operations, all taken as
parameters, as §6 of the spec specifies them only at their interface. -/
structure IcuEnv where
  parse_langid : String → Option String
  try_new_composite : String → FieldSetBuilder → Except Unit IcuFormatter
  try_new_composite_datetime : String → FieldSetBuilder → Except Unit IcuFormatter
  format_zoned : IcuFormatter → IcuDateTime → String
  format_naive : IcuFormatter → IcuDateTime → String

/-- The module-local `DateTimeFormatter` enum from `src/lib.rs`. -/
inductive DateTimeFormatter where
  | WithZone (f : IcuFormatter)
  | NoZone (f : IcuFormatter)

/-- Rust `FluentDateTimeOptions::make_formatter` from `src/lib.rs`: compile the
bag, then build a zone-aware or zone-free formatter according to whether a
zone style was requested. -/
def FluentDateTimeOptions.make_formatter (env : IcuEnv) (self : FluentDateTimeOptions)
    (langid : String) : Except Unit DateTimeFormatter :=
  let fsb := self.length.to_fieldset_builder
  if fsb.zone_style.isSome then
    (env.try_new_composite langid fsb).map DateTimeFormatter.WithZone
  else
    (env.try_new_composite_datetime langid fsb).map DateTimeFormatter.NoZone

/-- Rust `DateTimeFormatter::format` from `src/lib.rs`: a zone-aware formatter
first resolves the naive date-time to the system zone (which clamps leap
seconds); a zone-free one formats the naive value directly.  The zone
attachment beyond the clamp lives in the external collaborators. -/
def DateTimeFormatter.format (env : IcuEnv) :
    DateTimeFormatter → IcuDateTime → String
  | DateTimeFormatter.WithZone f, dt => env.format_zoned f (clamp_datetime_for_jiff dt)
  | DateTimeFormatter.NoZone f, dt => env.format_naive f dt

/-- Rust `impl Memoizable for DateTimeFormatter`, `construct`: parse the language
tag into an ICU language identifier (an error maps to `Err(())`), then build
the formatter. -/
def DateTimeFormatter.construct (env : IcuEnv) (lang : String)
    (args : FluentDateTimeOptions) : Except Unit DateTimeFormatter :=
  match env.parse_langid lang with
  | none => Except.error ()
  | some langid => args.make_formatter env langid

/-- Rust `impl Memoizable for GimmeTheLocale`, `construct`: infallibly returns the
memoizer's language. -/
def GimmeTheLocale.construct (lang : String) : Except Empty String :=
  Except.ok lang

/-- The `.expect("Infallible")` applied to `GimmeTheLocale`: total because
the error type is uninhabited, so it can never panic. -/
def expectInfallibleOk (r : Except Empty String) : String :=
  match r with
  | Except.ok s => s
  | Except.error e => e.elim

/-- Rust `FluentType::as_string` for `FluentDateTime` (`src/lib.rs`): look up or
construct the formatter through the single-threaded memoizer (modelled by
its construction outcome, which every cache hit repeats value-wise), format
on success, and fall back to the empty string (`unwrap_or_default`) on a
construction error. -/
def as_string (env : IcuEnv) (lang : String) (self : FluentDateTime) : String :=
  match DateTimeFormatter.construct env lang self.options with
  | Except.ok dtf => dtf.format env self.value
  | Except.error _ => ""

/-- Rust `FluentType::as_string_threadsafe` for `FluentDateTime` (`src/lib.rs`):
recover the language through the infallible `GimmeTheLocale` memoizer, parse
it (returning `""` when it does not parse), build an uncached formatter
(returning `""` when construction fails) and format. -/
def as_string_threadsafe (env : IcuEnv) (lang : String) (self : FluentDateTime) : String :=
  let l := expectInfallibleOk (GimmeTheLocale.construct lang)
  match env.parse_langid l with
  | none => ""
  | some langid =>
    match self.options.make_formatter env langid with
    | Except.error _ => ""
    | Except.ok dtf => dtf.format env self.value

/-- A sample naive date-time (1989-11-09 23:30:00). -/
def sampleDT : IcuDateTime :=
  { date := { year := 1989, month := 11, day := 9 },
    time := { hour := 23, minute := 30, second := 0, subsecond := 0 } }

/-- A sample naive date-time carrying a leap second (1990-06-30 23:59:60). -/
def sampleLeapDT : IcuDateTime :=
  { date := { year := 1990, month := 6, day := 30 },
    time := { hour := 23, minute := 59, second := 60, subsecond := 0 } }

/-- A sample `FluentDateTime` with default options. -/
def sampleFdt : FluentDateTime :=
  { value := sampleDT, options := FluentDateTimeOptions.default }

/-- An environment whose language-tag parser rejects every tag. -/
def envFail : IcuEnv :=
  { parse_langid := fun _ => none
    try_new_composite := fun _ _ => Except.error ()
    try_new_composite_datetime := fun _ _ => Except.error ()
    format_zoned := fun _ _ => ""
    format_naive := fun _ _ => "" }

end FluentDatetime

namespace FluentDatetime

/-- Claim C1: a `StyleBag` equal to `empty()` compiles, via the empty-bag
substitution to `{date: Some(Short), time: None}`, to the short-date-only
configuration — YMD date fields at Short length, no time precision, no zone
style — and the default options are exactly that empty bag. -/
theorem claim_C1 (b : Bag) (h : b = Bag.empty) :
    b.to_fieldset_builder =
      { date_fields := some DateFields.YMD, length := some Length.Short,
        time_precision := none, zone_style := none }
    ∧ FluentDateTimeOptions.default.length = b := by
  subst h
  exact ⟨rfl, rfl⟩

/-- Witness for C1 at the empty bag. -/
theorem claim_C1_witness :
    Bag.empty.to_fieldset_builder =
      { date_fields := some DateFields.YMD, length := some Length.Short,
        time_precision := none, zone_style := none }
    ∧ FluentDateTimeOptions.default.length = Bag.empty :=
  claim_C1 Bag.empty rfl

/-- Claim C2: a bag with time style `Some t` compiles to time precision
Minute when `t = Short` and Second otherwise, and to zone style
SpecificLong when `t = Full`, SpecificShort when `t = Long`, and none for
Medium or Short. -/
theorem claim_C2 :
    ∀ (b : Bag) (t : Time), b.time = some t →
      b.to_fieldset_builder.time_precision =
        some (if t = Time.Short then TimePrecision.Minute else TimePrecision.Second)
      ∧ b.to_fieldset_builder.zone_style =
        (if t = Time.Full then some ZoneStyle.SpecificLong
         else if t = Time.Long then some ZoneStyle.SpecificShort
         else none) := by
  decide

/-- Witness for C2 at `{date: None, time: Some(Full)}`. -/
theorem claim_C2_witness :
    (Bag.mk none (some Time.Full)).to_fieldset_builder.time_precision =
      some (if Time.Full = Time.Short then TimePrecision.Minute else TimePrecision.Second)
    ∧ (Bag.mk none (some Time.Full)).to_fieldset_builder.zone_style =
      (if Time.Full = Time.Full then some ZoneStyle.SpecificLong
       else if Time.Full = Time.Long then some ZoneStyle.SpecificShort
       else none) :=
  claim_C2 (Bag.mk none (some Time.Full)) Time.Full rfl

/-- Claim C3: when the date style after the empty-bag substitution is
`Some d`, the compiled builder selects weekday-bearing YMDE fields exactly
for `d = Full` and YMD otherwise, at length Long for Full and Long, Medium
for Medium and Short for Short. -/
theorem claim_C3 :
    ∀ (b : Bag) (d : Date),
      (if b = Bag.empty then some Date.Short else b.date) = some d →
      b.to_fieldset_builder.date_fields =
        some (if d = Date.Full then DateFields.YMDE else DateFields.YMD)
      ∧ b.to_fieldset_builder.length =
        some (if d = Date.Full ∨ d = Date.Long then Length.Long
          else if d = Date.Medium then Length.Medium
          else Length.Short) := by
  decide

/-- Witness for C3 at `{date: Some(Full), time: None}`. -/
theorem claim_C3_witness :
    (Bag.mk (some Date.Full) none).to_fieldset_builder.date_fields =
      some (if Date.Full = Date.Full then DateFields.YMDE else DateFields.YMD)
    ∧ (Bag.mk (some Date.Full) none).to_fieldset_builder.length =
      some (if Date.Full = Date.Full ∨ Date.Full = Date.Long then Length.Long
        else if Date.Full = Date.Medium then Length.Medium
        else Length.Short) :=
  claim_C3 (Bag.mk (some Date.Full) none) Date.Full (by decide)

/-- Claim C4: the pre-conversion clamp maps a leap second (second = 60) to
the same date-time with second 59 and subsecond 999999999, leaves every
date-time with second below 60 unchanged, is total (never errors), and
never rolls into the next minute: date, hour and minute are always
preserved and a clamped value's second is 59. -/
theorem claim_C4 (dt : IcuDateTime) :
    (dt.time.second = 60 →
      clamp_datetime_for_jiff dt =
        { dt with time := { dt.time with second := 59, subsecond := 999999999 } })
    ∧ (dt.time.second < 60 → clamp_datetime_for_jiff dt = dt)
    ∧ (clamp_datetime_for_jiff dt).date = dt.date
    ∧ (clamp_datetime_for_jiff dt).time.hour = dt.time.hour
    ∧ (clamp_datetime_for_jiff dt).time.minute = dt.time.minute
    ∧ (60 ≤ dt.time.second → (clamp_datetime_for_jiff dt).time.second = 59) := by
  refine ⟨?_, ?_, ?_, ?_, ?_, ?_⟩
  · intro h60
    have hlt : ¬dt.time.second < 60 := by omega
    simp [clamp_datetime_for_jiff, hlt]
  · intro hlt
    simp [clamp_datetime_for_jiff, hlt]
  · by_cases h : dt.time.second < 60 <;> simp [clamp_datetime_for_jiff, h]
  · by_cases h : dt.time.second < 60 <;> simp [clamp_datetime_for_jiff, h]
  · by_cases h : dt.time.second < 60 <;> simp [clamp_datetime_for_jiff, h]
  · intro h60
    have hlt : ¬dt.time.second < 60 := by omega
    simp [clamp_datetime_for_jiff, hlt]

/-- Witness for C4 at the leap-second 1990-06-30 23:59:60. -/
theorem claim_C4_witness :
    clamp_datetime_for_jiff sampleLeapDT =
      { sampleLeapDT with
        time := { sampleLeapDT.time with second := 59, subsecond := 999999999 } } :=
  (claim_C4 sampleLeapDT).1 rfl

/-- Claim C6: `DATETIME` merges into a clone, so a failing merge yields the
error sentinel (discarding whatever partial state the clone reached), and a
successful merge yields a new custom value carrying the original date with
the merged options; the original value, being a pure input, is unchanged in
both cases. -/
theorem claim_C6 (dt : FluentDateTime) (rest : List FluentValue)
    (named : List (String × FluentValue)) :
    ((dt.options.merge_args named).2 = false →
      DATETIME (FluentValue.Custom (CustomValue.fdt dt) :: rest) named = FluentValue.Error)
    ∧ ((dt.options.merge_args named).2 = true →
      DATETIME (FluentValue.Custom (CustomValue.fdt dt) :: rest) named =
        FluentValue.Custom (CustomValue.fdt
          { value := dt.value, options := (dt.options.merge_args named).1 })) := by
  constructor <;> intro h <;> simp [DATETIME, h]

/-- Witness for C6: a bogus `dateStyle` value makes `DATETIME` return the
error sentinel. -/
theorem claim_C6_witness :
    DATETIME [FluentValue.Custom (CustomValue.fdt sampleFdt)]
        [("dateStyle", FluentValue.Str "bogus")] = FluentValue.Error :=
  (claim_C6 sampleFdt [] [("dateStyle", FluentValue.Str "bogus")]).1 (by decide)

/-- Claim C7: attaching the zone with the compatible disambiguation policy
sends a local time inside a DST gap forward by the gap length, and resolves
an ambiguous local time to the earlier of its instants. -/
theorem claim_C7 (tz : SimpleTZ) (l : Int) :
    ((tz.offBefore < tz.offAfter ∧ tz.trans + tz.offBefore ≤ l ∧ l < tz.trans + tz.offAfter) →
      tz.localAt (tz.toZonedCompatible l) = l + (tz.offAfter - tz.offBefore))
    ∧ ((tz.offAfter < tz.offBefore ∧ tz.trans + tz.offAfter ≤ l ∧ l < tz.trans + tz.offBefore) →
      (tz.localAt (tz.toZonedCompatible l) = l
        ∧ ∀ t : Int, tz.localAt t = l → tz.toZonedCompatible l ≤ t)) := by
  constructor
  · rintro ⟨h1, h2, h3⟩
    simp only [SimpleTZ.toZonedCompatible, SimpleTZ.localAt, SimpleTZ.offsetAt]
    split_ifs <;> omega
  · rintro ⟨h1, h2, h3⟩
    constructor
    · simp only [SimpleTZ.toZonedCompatible, SimpleTZ.localAt, SimpleTZ.offsetAt]
      split_ifs <;> omega
    · intro t ht
      simp only [SimpleTZ.toZonedCompatible, SimpleTZ.localAt, SimpleTZ.offsetAt] at ht ⊢
      split_ifs at ht ⊢ <;> omega

/-- Witness for C7: in a zone springing forward by an hour at instant 0, the
gap local time 1800 resolves one gap-length later. -/
theorem claim_C7_witness :
    SimpleTZ.localAt { trans := 0, offBefore := 0, offAfter := 3600 }
        (SimpleTZ.toZonedCompatible { trans := 0, offBefore := 0, offAfter := 3600 } 1800) =
      1800 + (3600 - 0) :=
  (claim_C7 { trans := 0, offBefore := 0, offAfter := 3600 } 1800).1
    (by refine ⟨?_, ?_, ?_⟩ <;> decide)

/-- Claim C8: hashing of `FluentDateTimeOptions` is consistent with its
equality — equal options feed identical data to the hasher — and the hashed
data is determined by the discriminants of the two optional styles alone. -/
theorem claim_C8 (a b : FluentDateTimeOptions) :
    (a = b → optionsHashKey a = optionsHashKey b)
    ∧ (a.length.date.map discrDate = b.length.date.map discrDate →
      a.length.time.map discrTime = b.length.time.map discrTime →
      optionsHashKey a = optionsHashKey b) := by
  constructor
  · rintro rfl
    rfl
  · intro h1 h2
    simp [optionsHashKey, h1, h2]

/-- Witness for C8 at two equal option values. -/
theorem claim_C8_witness :
    optionsHashKey FluentDateTimeOptions.default =
      optionsHashKey FluentDateTimeOptions.default :=
  (claim_C8 FluentDateTimeOptions.default FluentDateTimeOptions.default).1 rfl

/-- Claim C9: both string-conversion operations degrade to the empty string
when the language tag does not parse or when formatter construction fails,
for every environment of external collaborators; being total Lean
functions, they never panic or abort the render. -/
theorem claim_C9 (env : IcuEnv) (lang : String) (self : FluentDateTime) :
    (env.parse_langid lang = none →
      as_string env lang self = "" ∧ as_string_threadsafe env lang self = "")
    ∧ (∀ langid, env.parse_langid lang = some langid →
      self.options.make_formatter env langid = Except.error () →
      as_string env lang self = "" ∧ as_string_threadsafe env lang self = "") := by
  constructor
  · intro h
    constructor <;>
      simp [as_string, as_string_threadsafe, DateTimeFormatter.construct,
        GimmeTheLocale.construct, expectInfallibleOk, h]
  · intro langid h1 h2
    constructor <;>
      simp [as_string, as_string_threadsafe, DateTimeFormatter.construct,
        GimmeTheLocale.construct, expectInfallibleOk, h1, h2]

/-- Witness for C9: under an environment rejecting every language tag, both
conversions return the empty string. -/
theorem claim_C9_witness :
    as_string envFail "not-a-tag" sampleFdt = ""
    ∧ as_string_threadsafe envFail "not-a-tag" sampleFdt = "" :=
  (claim_C9 envFail "not-a-tag" sampleFdt).1 rfl

/-- Claim C10: `DATETIME` returns the error sentinel whenever the positional
list is empty or its first element is not a custom `FluentDateTime`, and in
those cases the result does not depend on the named arguments. -/
theorem claim_C10 (positional : List FluentValue)
    (named named2 : List (String × FluentValue))
    (h : ∀ v, positional.head? = some v → isFdtCustomVal v = false) :
    DATETIME positional named = FluentValue.Error
    ∧ DATETIME positional named = DATETIME positional named2 := by
  cases positional with
  | nil => exact ⟨rfl, rfl⟩
  | cons v rest =>
    have hv := h v rfl
    cases v with
    | Custom c =>
      cases c with
      | fdt dt => simp [isFdtCustomVal] at hv
      | otherCustom => exact ⟨rfl, rfl⟩
    | Str s => exact ⟨rfl, rfl⟩
    | Number n => exact ⟨rfl, rfl⟩
    | NoneVal => exact ⟨rfl, rfl⟩
    | Error => exact ⟨rfl, rfl⟩

/-- Witness for C10: a plain string positional argument yields the error
sentinel independently of the named arguments. -/
theorem claim_C10_witness :
    DATETIME [FluentValue.Str "x"] [("dateStyle", FluentValue.Str "full")] = FluentValue.Error
    ∧ DATETIME [FluentValue.Str "x"] [("dateStyle", FluentValue.Str "full")] =
      DATETIME [FluentValue.Str "x"] [] :=
  claim_C10 [FluentValue.Str "x"] [("dateStyle", FluentValue.Str "full")] []
    (by intro v hv; cases hv; rfl)

/-- Unrecognized argument names leave the merge state untouched. -/
theorem merge_args_cons_other (self : FluentDateTimeOptions) (k : String)
    (v : FluentValue) (rest : List (String × FluentValue))
    (hk1 : k ≠ "dateStyle") (hk2 : k ≠ "timeStyle") :
    FluentDateTimeOptions.merge_args self ((k, v) :: rest) =
      FluentDateTimeOptions.merge_args self rest := by
  simp [FluentDateTimeOptions.merge_args, hk1, hk2]

/-- A `"dateStyle"` argument either overwrites the date axis with its parse
and continues, or fails on the spot. -/
theorem merge_args_cons_date (self : FluentDateTimeOptions) (v : FluentValue)
    (rest : List (String × FluentValue)) :
    FluentDateTimeOptions.merge_args self (("dateStyle", v) :: rest) =
      (match parseDateValue v with
        | some d =>
          FluentDateTimeOptions.merge_args
            { self with length := { self.length with date := some d } } rest
        | none => (self, false)) := by
  rcases hv : val_as_str v with _ | s
  · simp [FluentDateTimeOptions.merge_args, parseDateValue, hv]
  · simp only [FluentDateTimeOptions.merge_args, parseDateValue, hv]
    by_cases h1 : s = "full"
    · simp [h1]
    · by_cases h2 : s = "long"
      · simp [h1, h2]
      · by_cases h3 : s = "medium"
        · simp [h1, h2, h3]
        · by_cases h4 : s = "short"
          · simp [h1, h2, h3, h4]
          · simp [h1, h2, h3, h4]

/-- A `"timeStyle"` argument either overwrites the time axis with its parse
and continues, or fails on the spot. -/
theorem merge_args_cons_time (self : FluentDateTimeOptions) (v : FluentValue)
    (rest : List (String × FluentValue)) :
    FluentDateTimeOptions.merge_args self (("timeStyle", v) :: rest) =
      (match parseTimeValue v with
        | some t =>
          FluentDateTimeOptions.merge_args
            { self with length := { self.length with time := some t } } rest
        | none => (self, false)) := by
  have hne : ("timeStyle" : String) ≠ "dateStyle" := by decide
  rcases hv : val_as_str v with _ | s
  · simp [FluentDateTimeOptions.merge_args, parseTimeValue, hv, hne]
  · simp only [FluentDateTimeOptions.merge_args, parseTimeValue, hv, hne, if_false,
      reduceIte]
    by_cases h1 : s = "full"
    · simp [h1, hne]
    · by_cases h2 : s = "long"
      · simp [h1, h2, hne]
      · by_cases h3 : s = "medium"
        · simp [h1, h2, h3, hne]
        · by_cases h4 : s = "short"
          · simp [h1, h2, h3, h4, hne]
          · simp [h1, h2, h3, h4, hne]

/-- Claim C5: the merge fails exactly when some `"dateStyle"` or
`"timeStyle"` argument does not parse (non-string value or unrecognized
spelling); other names are ignored; and on success each recognized name
present overwrites its axis with the parsed length, replacing any prior
value, as the `appliedDate`/`appliedTime` fold describes. -/
theorem claim_C5 (self : FluentDateTimeOptions) (args : List (String × FluentValue)) :
    ((FluentDateTimeOptions.merge_args self args).2 = true ↔
      ∀ kv ∈ args,
        (kv.1 = "dateStyle" → (parseDateValue kv.2).isSome = true)
        ∧ (kv.1 = "timeStyle" → (parseTimeValue kv.2).isSome = true))
    ∧ ((FluentDateTimeOptions.merge_args self args).2 = true →
      (FluentDateTimeOptions.merge_args self args).1 =
        { length := { date := appliedDate self.length.date args,
                      time := appliedTime self.length.time args } }) := by
  induction args generalizing self with
  | nil =>
    refine ⟨by simp [FluentDateTimeOptions.merge_args], fun _ => rfl⟩
  | cons kv rest ih =>
    obtain ⟨k, v⟩ := kv
    by_cases hk : k = "dateStyle"
    · subst hk
      rw [merge_args_cons_date]
      cases hp : parseDateValue v with
      | none =>
        simp [List.forall_mem_cons, hp]
      | some d =>
        have ihd := ih { self with length := { self.length with date := some d } }
        simp only [List.forall_mem_cons, hp, appliedDate, appliedTime]
        constructor
        · rw [ihd.1]
          simp [hp]
        · intro hsucc
          rw [ihd.2 hsucc]
          simp [hp]
    · by_cases hk2 : k = "timeStyle"
      · subst hk2
        rw [merge_args_cons_time]
        cases hp : parseTimeValue v with
        | none =>
          simp [List.forall_mem_cons, hp, hk]
        | some t =>
          have iht := ih { self with length := { self.length with time := some t } }
          simp only [List.forall_mem_cons, hp, appliedDate, appliedTime]
          constructor
          · rw [iht.1]
            simp [hp, hk]
          · intro hsucc
            rw [iht.2 hsucc]
            simp [hp, hk]
      · rw [merge_args_cons_other self k v rest hk hk2]
        have ihs := ih self
        simp only [List.forall_mem_cons, appliedDate, appliedTime]
        constructor
        · rw [ihs.1]
          simp [hk, hk2]
        · intro hsucc
          rw [ihs.2 hsucc]
          simp [hk, hk2]

/-- Witness for C5: merging a `dateStyle: "full"` argument into the default
(empty) bag succeeds and yields `date = Full, time = None`. -/
theorem claim_C5_witness :
    (FluentDateTimeOptions.merge_args FluentDateTimeOptions.default
        [("dateStyle", FluentValue.Str "full")]).1 =
      { length :=
          { date :=
              (appliedDate FluentDateTimeOptions.default.length.date
                [("dateStyle", FluentValue.Str "full")]),
            time :=
              (appliedTime FluentDateTimeOptions.default.length.time
                [("dateStyle", FluentValue.Str "full")]) } } :=
  (claim_C5 FluentDateTimeOptions.default [("dateStyle", FluentValue.Str "full")]).2
    (by decide)

end FluentDatetime
